import Mathlib

/-!
Verification of the Code-Execution-API installer
(`code_execution_api_installer.py`) against its specification.

The Python source is shallowly embedded: every point where the program
interacts with the outside world (network transfer, registry lookup,
subprocess invocation, archive unpacking) is parameterised by an explicit
outcome value, and code that may raise is modelled in the `Except` monad,
so that `Except.error` is a Python exception propagating past the function
and `Except.ok` is an ordinary return.
-/

namespace Installer

/-- Outcome of the underlying `urllib.request.urlretrieve` transfer:
either the transfer completes, or it raises an exception with a message. -/
inductive TransferOutcome where
  | ok
  | exn (msg : String)
deriving DecidableEq

/-- Embedding of the `urllib.request.urlretrieve(url, destination, reporthook)`
call inside `download_file`: it either returns or raises. -/
def urlretrieve (transfer : TransferOutcome) : Except String Unit :=
  match transfer with
  | TransferOutcome.ok => Except.ok ()
  | TransferOutcome.exn m => Except.error m

/-- Embedding of `download_file` (source lines 42-63): the `urlretrieve`
call sits inside a `try`/`except Exception` block; the `try` branch
returns `True`, the `except` branch prints the error and returns `False`. -/
def download_file (transfer : TransferOutcome) : Except String Bool :=
  match urlretrieve transfer with
  | Except.ok _ => Except.ok true
  | Except.error _ => Except.ok false

/-- What one invocation of the progress hook writes: either a percentage
of the total, or a raw byte count. -/
inductive ProgressReport where
  | percent (p : ℚ)
  | bytes (n : ℕ)
deriving DecidableEq

/-- Embedding of the `report_progress(blocknum, blocksize, totalsize)`
closure inside `download_file` (source lines 46-55):
`readsofar = blocknum * blocksize`; when `totalsize > 0` it writes the
percentage `readsofar * 100 / totalsize`, otherwise it writes the raw
byte count `readsofar`.  `totalsize` is the integer urllib reports, which
is negative when the server does not announce a total size. -/
def report_progress (blocknum blocksize : ℕ) (totalsize : ℤ) : ProgressReport :=
  let readsofar : ℕ := blocknum * blocksize
  if 0 < totalsize then
    ProgressReport.percent ((readsofar : ℚ) * 100 / (totalsize : ℚ))
  else
    ProgressReport.bytes readsofar

/-- Outcome of the `winreg.OpenKey(HKEY_LOCAL_MACHINE, "SOFTWARE\\Docker Inc.\\Docker Desktop")`
lookup: the key is found, or the lookup raises a `WindowsError` (`OSError`)
with a numeric error code (key absent or any other registry failure). -/
inductive RegistryLookup where
  | found
  | error (code : ℕ)
deriving DecidableEq

/-- Embedding of the `winreg.OpenKey` call inside `check_docker_installed`:
either it yields a key handle or it raises. -/
def openKey (lookup : RegistryLookup) : Except ℕ Unit :=
  match lookup with
  | RegistryLookup.found => Except.ok ()
  | RegistryLookup.error c => Except.error c

/-- Embedding of `check_docker_installed` (source lines 65-72): the
`winreg.OpenKey` call sits inside `try`/`except WindowsError`; success
returns `True`, the handler returns `False`. -/
def check_docker_installed (lookup : RegistryLookup) : Except ℕ Bool :=
  match openKey lookup with
  | Except.ok _ => Except.ok true
  | Except.error _ => Except.ok false

/-- Outcome of a `subprocess.run` invocation: the process ran and exited
with a code, or the invocation itself raised. -/
inductive InvocationOutcome where
  | exit (code : ℤ)
  | raised (msg : String)
deriving DecidableEq

/-- Embedding of `check_conda_installed` (source lines 97-104): runs
`conda --version` inside a bare `try`/`except`; a completed run returns
`returncode == 0`, any exception returns `False`. -/
def check_conda_installed (probe : InvocationOutcome) : Except String Bool :=
  match probe with
  | InvocationOutcome.exit c => Except.ok (decide (c = 0))
  | InvocationOutcome.raised _ => Except.ok false

/-- Observable events of one remediation run (`install_docker` /
`install_miniconda`), in program order. -/
inductive RemEvent where
  | fetchAttempt
  | ranInstaller
  | printedDiagnostic
  | prompted
  | mutatedPath
deriving DecidableEq

/-- Embedding of `install_docker` (source lines 74-95): download the
installer; if the download reports success, run the installer silently;
exit code 0 returns `True`; a non-zero exit prints the captured stderr,
prints the manual-install instruction and blocks on `input()` before
falling through to `return False`; a failed download falls through to
`return False` without running the installer. -/
def install_docker (fetch : TransferOutcome) (installExit : ℤ) :
    Except String (List RemEvent × Bool) :=
  match download_file fetch with
  | Except.error m => Except.error m
  | Except.ok true =>
      if installExit = 0 then
        Except.ok ([RemEvent.fetchAttempt, RemEvent.ranInstaller], true)
      else
        Except.ok ([RemEvent.fetchAttempt, RemEvent.ranInstaller,
                    RemEvent.printedDiagnostic, RemEvent.prompted], false)
  | Except.ok false => Except.ok ([RemEvent.fetchAttempt], false)

/-- Embedding of `install_miniconda` (source lines 106-132): identical
control flow to `install_docker`, except that a successful install also
prepends the Miniconda directories to the session `PATH`. -/
def install_miniconda (fetch : TransferOutcome) (installExit : ℤ) :
    Except String (List RemEvent × Bool) :=
  match download_file fetch with
  | Except.error m => Except.error m
  | Except.ok true =>
      if installExit = 0 then
        Except.ok ([RemEvent.fetchAttempt, RemEvent.ranInstaller,
                    RemEvent.mutatedPath], true)
      else
        Except.ok ([RemEvent.fetchAttempt, RemEvent.ranInstaller,
                    RemEvent.printedDiagnostic, RemEvent.prompted], false)
  | Except.ok false => Except.ok ([RemEvent.fetchAttempt], false)

/-- A filesystem entry at the top level of a directory: a file with its
content, or a subdirectory with its own named children. -/
inductive FsEntry where
  | file (content : String) : FsEntry
  | dir (children : List (String × FsEntry)) : FsEntry

/-- The top-level listing of a directory: which entry, if any, each name
maps to. -/
abbrev Listing := String → Option FsEntry

/-- Embedding of the `if os.path.exists(dest): shutil.rmtree / os.remove`
step of `download_and_extract_project` (source lines 166-170): if an
entry exists under `name`, remove it — `shutil.rmtree` when it is a
directory, `os.remove` when it is a file. -/
def remove_existing (t : Listing) (name : String) : Listing :=
  match t name with
  | none => t
  | some (FsEntry.dir _) => fun n => if n = name then none else t n
  | some (FsEntry.file _) => fun n => if n = name then none else t n

/-- Embedding of the `shutil.move(source, dest)` step (source line 173)
in the state the loop guarantees (no entry at `dest`): the source entry
is placed under `name`. -/
def move_item (t : Listing) (name : String) (e : FsEntry) : Listing :=
  fun n => if n = name then some e else t n

/-- One iteration of the move loop of `download_and_extract_project`
(source lines 161-173): remove any same-named destination entry, then
move the archive child into place. -/
def materialize_step (t : Listing) (item : String × FsEntry) : Listing :=
  move_item (remove_existing t item.1) item.1 item.2

/-- The whole move loop: `for item in os.listdir(extracted_dir)` applied
to the archive root's children in order. -/
def materialize_loop (items : List (String × FsEntry)) (t : Listing) : Listing :=
  items.foldl materialize_step t

/-- The last entry a name is bound to in a list of named children
(later list entries shadow earlier ones, matching the loop order). -/
def lookupLast (items : List (String × FsEntry)) (n : String) : Option FsEntry :=
  match items with
  | [] => none
  | (m, e) :: rest =>
    match lookupLast rest n with
    | some e2 => some e2
    | none => if n = m then some e else none

/-- Outcome of the `zipfile.ZipFile` open / `extractall` block inside
`download_and_extract_project`: it either completes or raises. -/
inductive UnpackOutcome where
  | ok
  | exn (msg : String)
deriving DecidableEq

/-- Result of one run of `download_and_extract_project`: the returned
value (or propagated exception), the final state of the installation
directory, and whether the scratch temp directory was removed. -/
structure MaterializeResult where
  outcome : Except String Bool
  installDir : Option Listing
  tempdirRemoved : Bool

/-- Embedding of `download_and_extract_project` (source lines 134-178):
make a scratch temp directory; download the archive, returning `False`
on fetch failure; `os.makedirs(INSTALL_DIR, exist_ok=True)`; unpack the
archive (an unpack exception propagates); move every child of the
archive's top-level root into the installation directory with the
remove-then-move rule; `shutil.rmtree(temp_dir)` only after all of that
succeeded, then return `True`.  `items` are the named children of the
archive's single top-level root and `target` is the prior state of the
installation directory (`none` when it does not exist yet). -/
def download_and_extract_project (fetch : TransferOutcome) (unpack : UnpackOutcome)
    (items : List (String × FsEntry)) (target : Option Listing) : MaterializeResult :=
  match download_file fetch with
  | Except.error m => ⟨Except.error m, target, false⟩
  | Except.ok false => ⟨Except.ok false, target, false⟩
  | Except.ok true =>
      let t1 : Listing := target.getD (fun _ => none)
      match unpack with
      | UnpackOutcome.exn m => ⟨Except.error m, some t1, false⟩
      | UnpackOutcome.ok => ⟨Except.ok true, some (materialize_loop items t1), true⟩

/-- Children of the archive root in the end-to-end scenario of the
specification: a fresh `docker-compose.yml` and a fresh
`requirements.txt`. -/
def archiveRootChildren : List (String × FsEntry) :=
  [("docker-compose.yml", FsEntry.file "new compose"),
   ("requirements.txt", FsEntry.file "new requirements")]

/-- A stale pre-existing installation directory: an old
`docker-compose.yml` that collides with the archive, and an
operator-added `notes.txt` outside the archive's namespace. -/
def staleTarget : Listing := fun n =>
  if n = "docker-compose.yml" then some (FsEntry.file "stale compose")
  else if n = "notes.txt" then some (FsEntry.file "operator notes") else none

theorem materialize_step_apply (t : Listing) (m n : String) (e : FsEntry) :
    materialize_step t (m, e) n = if n = m then some e else t n := by
  by_cases h : n = m
  · subst h
    simp [materialize_step, move_item]
  · simp only [materialize_step, move_item, if_neg h, remove_existing]
    cases ht : t (m, e).1 with
    | none => rfl
    | some e2 => cases e2 <;> simp [if_neg h]

theorem materialize_loop_eq_lookupLast (items : List (String × FsEntry))
    (t : Listing) (n : String) :
    materialize_loop items t n =
      match lookupLast items n with
      | some e => some e
      | none => t n := by
  induction items generalizing t with
  | nil => rfl
  | cons hd rest ih =>
    obtain ⟨m, e⟩ := hd
    show materialize_loop rest (materialize_step t (m, e)) n = _
    rw [ih]
    simp only [lookupLast]
    cases h : lookupLast rest n with
    | some e2 => simp
    | none =>
      simp only [materialize_step_apply]
      by_cases hn : n = m <;> simp [hn]

theorem lookupLast_eq_none_of_not_mem (items : List (String × FsEntry)) (n : String)
    (h : n ∉ items.map Prod.fst) : lookupLast items n = none := by
  induction items with
  | nil => rfl
  | cons hd rest ih =>
    obtain ⟨m, e⟩ := hd
    simp only [List.map_cons, List.mem_cons] at h
    push_neg at h
    simp [lookupLast, ih h.2, h.1]

theorem lookupLast_of_mem (items : List (String × FsEntry)) (n : String) (e : FsEntry)
    (hnd : (items.map Prod.fst).Nodup) (hmem : (n, e) ∈ items) :
    lookupLast items n = some e := by
  induction items with
  | nil => cases hmem
  | cons hd rest ih =>
    obtain ⟨m, e2⟩ := hd
    simp only [List.map_cons, List.nodup_cons] at hnd
    rcases List.mem_cons.mp hmem with heq | hrest
    · obtain ⟨rfl, rfl⟩ := Prod.mk.injEq .. ▸ heq
      have : n ∉ rest.map Prod.fst := hnd.1
      simp [lookupLast, lookupLast_eq_none_of_not_mem rest n this]
    · simp [lookupLast, ih hnd.2 hrest]

/-- External calls made by `create_conda_environment`. -/
inductive CondaCall where
  | envList
  | envUpdate
  | envCreate
  | pipInstall
deriving DecidableEq

/-- Embedding of `create_conda_environment` (source lines 180-203): run
`conda env list`; if the environment name occurs in its stdout
(`envExists`), run `conda env update`, otherwise run `conda create`;
then run `conda run ... pip install`; none of the exit statuses is
inspected and the function always returns `True`.  The returned list
records each call with its exit status. -/
def create_conda_environment (envListExit : ℤ) (envExists : Bool)
    (envUpdateExit envCreateExit pipExit : ℤ) : List (CondaCall × ℤ) × Bool :=
  if envExists then
    ([(CondaCall.envList, envListExit), (CondaCall.envUpdate, envUpdateExit),
      (CondaCall.pipInstall, pipExit)], true)
  else
    ([(CondaCall.envList, envListExit), (CondaCall.envCreate, envCreateExit),
      (CondaCall.pipInstall, pipExit)], true)

/-- External calls made by `start_docker_services`. -/
inductive DockerCall where
  | build
  | up
deriving DecidableEq

/-- Embedding of `start_docker_services` (source lines 251-266): run
`docker-compose build` and `docker-compose up -d`; neither exit status
is inspected and the function always returns `True`. -/
def start_docker_services (buildExit upExit : ℤ) : List (DockerCall × ℤ) × Bool :=
  ([(DockerCall.build, buildExit), (DockerCall.up, upExit)], true)

/-- The workflow steps `main` can reach, in narration order. -/
inductive Step where
  | privGate
  | relaunch
  | probeDocker
  | installDocker
  | probeConda
  | installConda
  | materialize
  | condaEnv
  | scripts
  | dockerServices
  | complete
deriving DecidableEq

/-- One run's worth of outside-world outcomes, fixing every point where
`main` or a function it calls touches the environment. -/
structure Env where
  admin : Bool
  dockerLookup : RegistryLookup
  condaProbe : InvocationOutcome
  dockerFetch : TransferOutcome
  dockerInstallExit : ℤ
  condaFetch : TransferOutcome
  condaInstallExit : ℤ
  projFetch : TransferOutcome
  unpack : UnpackOutcome
  archiveItems : List (String × FsEntry)
  installDir : Option Listing

/-- The tail of `main` after both prerequisite phases (source lines
296-321): call `download_and_extract_project`; on `False` print, prompt
and `return`; on a propagated exception stop as well; on `True` continue
through `create_conda_environment`, `create_startup_scripts` and
`start_docker_services` to completion. -/
def mainAfterConda (e : Env) : List Step :=
  match (download_and_extract_project e.projFetch e.unpack e.archiveItems
      e.installDir).outcome with
  | Except.ok true => [Step.materialize, Step.condaEnv, Step.scripts,
      Step.dockerServices, Step.complete]
  | _ => [Step.materialize]

/-- The part of `main` from the Miniconda probe on (source lines
290-294): probe conda, remediate when the probe reports absent (the
remediation result is ignored), then continue. -/
def mainFromConda (e : Env) : List Step :=
  match check_conda_installed e.condaProbe with
  | Except.error _ => [Step.probeConda]
  | Except.ok condaOk =>
      Step.probeConda ::
        (if condaOk then mainAfterConda e
         else
           match install_miniconda e.condaFetch e.condaInstallExit with
           | Except.error _ => [Step.installConda]
           | Except.ok _ => Step.installConda :: mainAfterConda e)

/-- The part of `main` from the Docker probe on (source lines 283-287):
probe Docker, remediate when the probe reports absent (the remediation
result is ignored), then continue. -/
def mainFromDocker (e : Env) : List Step :=
  match check_docker_installed e.dockerLookup with
  | Except.error _ => [Step.probeDocker]
  | Except.ok dockerOk =>
      Step.probeDocker ::
        (if dockerOk then mainFromConda e
         else
           match install_docker e.dockerFetch e.dockerInstallExit with
           | Except.error _ => [Step.installDocker]
           | Except.ok _ => Step.installDocker :: mainFromConda e)

/-- Embedding of `main` (source lines 268-321) as the ordered list of
workflow steps it reaches: without elevation it re-launches elevated and
exits; with elevation it runs the probe/remediate/materialize/provision
sequence. -/
def main (e : Env) : List Step :=
  if e.admin then Step.privGate :: mainFromDocker e
  else [Step.privGate, Step.relaunch]

/-- A run without elevation (everything else benign). -/
def nonAdminEnv : Env :=
  { admin := false, dockerLookup := RegistryLookup.found,
    condaProbe := InvocationOutcome.exit 0, dockerFetch := TransferOutcome.ok,
    dockerInstallExit := 0, condaFetch := TransferOutcome.ok,
    condaInstallExit := 0, projFetch := TransferOutcome.ok,
    unpack := UnpackOutcome.ok, archiveItems := [], installDir := none }

/-- An elevated run in which every external outcome is favourable. -/
def happyEnv : Env :=
  { admin := true, dockerLookup := RegistryLookup.found,
    condaProbe := InvocationOutcome.exit 0, dockerFetch := TransferOutcome.ok,
    dockerInstallExit := 0, condaFetch := TransferOutcome.ok,
    condaInstallExit := 0, projFetch := TransferOutcome.ok,
    unpack := UnpackOutcome.ok, archiveItems := [], installDir := none }

/-- An elevated run in which Docker is absent and its unattended install
exits non-zero. -/
def dockerMissingEnv : Env :=
  { happyEnv with dockerLookup := RegistryLookup.error 2, dockerInstallExit := 1 }

/-- An elevated run in which Miniconda is absent and its unattended
install exits non-zero. -/
def condaMissingEnv : Env :=
  { happyEnv with condaProbe := InvocationOutcome.exit 1, condaInstallExit := 1 }

/-- An elevated run in which the project-archive fetch fails. -/
def projFetchFailEnv : Env :=
  { happyEnv with projFetch := TransferOutcome.exn "connection timed out" }

end Installer

namespace Installer

/-- C5: for every transfer outcome, `download_file` returns a boolean —
it never lets the exception escape (`Except.error` is impossible) — a
transfer exception always yields `False`, and `True` is returned only
when the transfer actually completed. -/
theorem download_file_total_and_fail_closed (o : TransferOutcome) :
    (∃ b : Bool, download_file o = Except.ok b) ∧
    (∀ m : String, o = TransferOutcome.exn m → download_file o = Except.ok false) ∧
    (download_file o = Except.ok true → o = TransferOutcome.ok) := by
  cases o <;> simp [download_file, urlretrieve]

/-- C5 witness: a concrete network failure during transfer yields the
failure result, not a raised exception and not success. -/
theorem download_file_total_and_fail_closed_witness :
    download_file (TransferOutcome.exn "connection reset") = Except.ok false :=
  (download_file_total_and_fail_closed
    (TransferOutcome.exn "connection reset")).2.1 "connection reset" rfl

/-- C7: every progress-hook invocation with known positive total size `T`
reports the percentage `R / T * 100` where `R = blocknum * blocksize` is
the bytes read so far; when the total size is unknown (`T ≤ 0`), the raw
byte count `R` is reported instead. -/
theorem report_progress_correct (blocknum blocksize : ℕ) (totalsize : ℤ) :
    (0 < totalsize →
      report_progress blocknum blocksize totalsize =
        ProgressReport.percent
          (((blocknum * blocksize : ℕ) : ℚ) / (totalsize : ℚ) * 100)) ∧
    (totalsize ≤ 0 →
      report_progress blocknum blocksize totalsize =
        ProgressReport.bytes (blocknum * blocksize)) := by
  constructor
  · intro h
    simp only [report_progress, if_pos h, ProgressReport.percent.injEq]
    ring
  · intro h
    simp [report_progress, not_lt.mpr h]

/-- C7 witness: with 3 blocks of 1024 bytes out of a 4096-byte total the
hook reports 75%; with an unknown total it reports 3072 raw bytes. -/
theorem report_progress_correct_witness :
    report_progress 3 1024 4096 = ProgressReport.percent ((3072 : ℚ) / 4096 * 100) ∧
    report_progress 3 1024 (-1) = ProgressReport.bytes 3072 := by
  constructor
  · exact (report_progress_correct 3 1024 4096).1 (by decide)
  · exact (report_progress_correct 3 1024 (-1)).2 (by decide)

/-- C6: both prerequisite probes are total and fail-closed: for every
lookup outcome they return a boolean (never propagate the lookup error),
a registry-lookup error makes `check_docker_installed` return `False`
(never `True`), and an invocation failure or non-zero exit makes
`check_conda_installed` return `False` (never `True`). -/
theorem probes_fail_closed (lookup : RegistryLookup) (probe : InvocationOutcome) :
    (∃ b : Bool, check_docker_installed lookup = Except.ok b) ∧
    (∀ c : ℕ, lookup = RegistryLookup.error c →
      check_docker_installed lookup = Except.ok false) ∧
    (check_docker_installed lookup = Except.ok true → lookup = RegistryLookup.found) ∧
    (∃ b : Bool, check_conda_installed probe = Except.ok b) ∧
    (∀ m : String, probe = InvocationOutcome.raised m →
      check_conda_installed probe = Except.ok false) ∧
    (∀ c : ℤ, probe = InvocationOutcome.exit c → c ≠ 0 →
      check_conda_installed probe = Except.ok false) := by
  refine ⟨?_, ?_, ?_, ?_, ?_, ?_⟩
  · cases lookup <;> simp [check_docker_installed, openKey]
  · intro c h; subst h; simp [check_docker_installed, openKey]
  · cases lookup <;> simp [check_docker_installed, openKey]
  · cases probe <;> simp [check_conda_installed]
  · intro m h; subst h; simp [check_conda_installed]
  · intro c h hc; subst h; simp [check_conda_installed, hc]

/-- C2: under a single-rooted archive (children with pairwise-distinct
names) and any pre-existing target, the move loop of
`download_and_extract_project` yields exactly the merge-with-overwrite:
every archive-root child ends up at its name, every non-colliding
pre-existing entry is unchanged, and running the loop twice equals
running it once at every name. -/
theorem materialize_merge_and_idempotent (items : List (String × FsEntry)) (t : Listing)
    (hnd : (items.map Prod.fst).Nodup) :
    (∀ (n : String) (e : FsEntry), (n, e) ∈ items →
      materialize_loop items t n = some e) ∧
    (∀ n : String, n ∉ items.map Prod.fst → materialize_loop items t n = t n) ∧
    (∀ n : String,
      materialize_loop items (materialize_loop items t) n = materialize_loop items t n) := by
  refine ⟨?_, ?_, ?_⟩
  · intro n e hmem
    rw [materialize_loop_eq_lookupLast, lookupLast_of_mem items n e hnd hmem]
  · intro n h
    rw [materialize_loop_eq_lookupLast, lookupLast_eq_none_of_not_mem items n h]
  · intro n
    rw [materialize_loop_eq_lookupLast items (materialize_loop items t) n,
        materialize_loop_eq_lookupLast items t n]
    cases h : lookupLast items n <;> simp

/-- C2 witness: on the concrete scenario, the colliding entry is
overwritten, the operator file survives, and a second run changes
nothing. -/
theorem materialize_merge_and_idempotent_witness :
    (archiveRootChildren.map Prod.fst).Nodup ∧
    materialize_loop archiveRootChildren staleTarget "docker-compose.yml" =
      some (FsEntry.file "new compose") ∧
    materialize_loop archiveRootChildren staleTarget "notes.txt" = staleTarget "notes.txt" ∧
    materialize_loop archiveRootChildren (materialize_loop archiveRootChildren staleTarget)
        "requirements.txt" =
      materialize_loop archiveRootChildren staleTarget "requirements.txt" := by
  refine ⟨by decide, ?_, ?_, ?_⟩
  · exact (materialize_merge_and_idempotent archiveRootChildren staleTarget (by decide)).1
      "docker-compose.yml" (FsEntry.file "new compose") (by simp [archiveRootChildren])
  · exact (materialize_merge_and_idempotent archiveRootChildren staleTarget (by decide)).2.1
      "notes.txt" (by decide)
  · exact (materialize_merge_and_idempotent archiveRootChildren staleTarget (by decide)).2.2
      "requirements.txt"

/-- C3 counterexample: when the archive fetch fails, the function returns
(with `False`) without removing the scratch temp directory, so the
claimed all-paths cleanup does not hold. -/
theorem tempdir_cleanup_counterexample :
    (download_and_extract_project (TransferOutcome.exn "connection refused")
        UnpackOutcome.ok [] none).tempdirRemoved = false := rfl

/-- C3 amended: the scratch temp directory is removed exactly on the
fully successful path; on fetch failure the function returns `False`
without removing it, and on unpack failure the exception propagates
without removing it. -/
theorem tempdir_removed_iff_success (fetch : TransferOutcome) (unpack : UnpackOutcome)
    (items : List (String × FsEntry)) (target : Option Listing) :
    (download_and_extract_project fetch unpack items target).tempdirRemoved = true ↔
      (fetch = TransferOutcome.ok ∧ unpack = UnpackOutcome.ok) := by
  cases fetch <;> cases unpack <;>
    simp [download_and_extract_project, download_file, urlretrieve]

/-- C10: after a successful fetch and unpack, materialization succeeds
whether or not the installation directory already exists —
`os.makedirs(..., exist_ok=True)` creates it when missing and accepts it
when present — and the directory exists afterwards. -/
theorem materialize_creates_target_dir (fetch : TransferOutcome) (unpack : UnpackOutcome)
    (hf : fetch = TransferOutcome.ok) (hu : unpack = UnpackOutcome.ok) :
    (∀ items, (download_and_extract_project fetch unpack items none).outcome =
        Except.ok true ∧
      ((download_and_extract_project fetch unpack items none).installDir).isSome = true) ∧
    (∀ items (l : Listing),
      (download_and_extract_project fetch unpack items (some l)).outcome =
        Except.ok true ∧
      ((download_and_extract_project fetch unpack items (some l)).installDir).isSome
        = true) := by
  subst hf; subst hu
  exact ⟨fun items => ⟨rfl, rfl⟩, fun items l => ⟨rfl, rfl⟩⟩

/-- C10 witness: a successful run against a not-yet-existing installation
directory returns `True` and leaves the directory existing. -/
theorem materialize_creates_target_dir_witness :
    (download_and_extract_project TransferOutcome.ok UnpackOutcome.ok [] none).outcome =
      Except.ok true ∧
    ((download_and_extract_project TransferOutcome.ok UnpackOutcome.ok []
        none).installDir).isSome = true :=
  (materialize_creates_target_dir TransferOutcome.ok UnpackOutcome.ok rfl rfl).1 []

/-- C6 witness: a concrete registry-lookup error (code 5, access denied)
and a concrete version-query exit of 1 both yield `False` without
propagating. -/
theorem probes_fail_closed_witness :
    check_docker_installed (RegistryLookup.error 5) = Except.ok false ∧
    check_conda_installed (InvocationOutcome.exit 1) = Except.ok false := by
  constructor
  · exact (probes_fail_closed (RegistryLookup.error 5)
      (InvocationOutcome.exit 1)).2.1 5 rfl
  · exact (probes_fail_closed (RegistryLookup.error 5)
      (InvocationOutcome.exit 1)).2.2.2.2.2 1 rfl (by decide)

theorem check_docker_total (l : RegistryLookup) :
    ∃ b : Bool, check_docker_installed l = Except.ok b := by
  cases l <;> exact ⟨_, rfl⟩

theorem check_conda_total (p : InvocationOutcome) :
    ∃ b : Bool, check_conda_installed p = Except.ok b := by
  cases p <;> exact ⟨_, rfl⟩

theorem install_docker_total (f : TransferOutcome) (x : ℤ) :
    ∃ r, install_docker f x = Except.ok r := by
  by_cases hx : x = 0 <;> cases f <;>
    simp [install_docker, download_file, urlretrieve, hx]

theorem install_miniconda_total (f : TransferOutcome) (x : ℤ) :
    ∃ r, install_miniconda f x = Except.ok r := by
  by_cases hx : x = 0 <;> cases f <;>
    simp [install_miniconda, download_file, urlretrieve, hx]

theorem mainAfterConda_cases (e : Env) :
    mainAfterConda e = [Step.materialize] ∨
      ((download_and_extract_project e.projFetch e.unpack e.archiveItems
          e.installDir).outcome = Except.ok true ∧
        mainAfterConda e = [Step.materialize, Step.condaEnv, Step.scripts,
          Step.dockerServices, Step.complete]) := by
  unfold mainAfterConda
  cases hM : (download_and_extract_project e.projFetch e.unpack e.archiveItems
      e.installDir).outcome with
  | error m => exact Or.inl rfl
  | ok b =>
    cases b
    · exact Or.inl rfl
    · exact Or.inr ⟨rfl, rfl⟩

theorem mem_mainFromConda (e : Env) (s : Step) (h : s ∈ mainFromConda e) :
    s = Step.probeConda ∨ s = Step.installConda ∨ s ∈ mainAfterConda e := by
  obtain ⟨b, hb⟩ := check_conda_total e.condaProbe
  obtain ⟨r, hr⟩ := install_miniconda_total e.condaFetch e.condaInstallExit
  unfold mainFromConda at h
  rw [hb] at h
  cases b <;> simp only [hr] at h <;> simp at h <;> tauto

theorem mem_mainFromDocker (e : Env) (s : Step) (h : s ∈ mainFromDocker e) :
    s = Step.probeDocker ∨ s = Step.installDocker ∨ s ∈ mainFromConda e := by
  obtain ⟨b, hb⟩ := check_docker_total e.dockerLookup
  obtain ⟨r, hr⟩ := install_docker_total e.dockerFetch e.dockerInstallExit
  unfold mainFromDocker at h
  rw [hb] at h
  cases b <;> simp only [hr] at h <;> simp at h <;> tauto

theorem mem_mainFromConda_of_after (e : Env) (s : Step) (h : s ∈ mainAfterConda e) :
    s ∈ mainFromConda e := by
  obtain ⟨b, hb⟩ := check_conda_total e.condaProbe
  obtain ⟨r, hr⟩ := install_miniconda_total e.condaFetch e.condaInstallExit
  unfold mainFromConda
  rw [hb]
  cases b <;> simp only [hr] <;> simp [h]

theorem mem_mainFromDocker_of_conda (e : Env) (s : Step) (h : s ∈ mainFromConda e) :
    s ∈ mainFromDocker e := by
  obtain ⟨b, hb⟩ := check_docker_total e.dockerLookup
  obtain ⟨r, hr⟩ := install_docker_total e.dockerFetch e.dockerInstallExit
  unfold mainFromDocker
  rw [hb]
  cases b <;> simp only [hr] <;> simp [h]

theorem probeConda_mem_mainFromConda (e : Env) :
    Step.probeConda ∈ mainFromConda e := by
  obtain ⟨b, hb⟩ := check_conda_total e.condaProbe
  unfold mainFromConda
  rw [hb]
  simp

theorem materialize_mem_mainAfterConda (e : Env) :
    Step.materialize ∈ mainAfterConda e := by
  rcases mainAfterConda_cases e with h | ⟨_, h⟩ <;> rw [h] <;> simp

/-- C9: when the process is not elevated, `main` re-launches elevated and
terminates right away: its trace is exactly the privilege gate followed
by the relaunch, and no later workflow step ever runs. -/
theorem privilege_gate_blocks (e : Env) (h : e.admin = false) :
    main e = [Step.privGate, Step.relaunch] ∧
    Step.probeDocker ∉ main e ∧ Step.materialize ∉ main e ∧
    Step.complete ∉ main e := by
  have hm : main e = [Step.privGate, Step.relaunch] := by simp [main, h]
  refine ⟨hm, ?_, ?_, ?_⟩ <;> rw [hm] <;> decide

/-- C9 witness: a concrete non-elevated run stops at the relaunch. -/
theorem privilege_gate_blocks_witness :
    main nonAdminEnv = [Step.privGate, Step.relaunch] ∧
    Step.probeDocker ∉ main nonAdminEnv ∧ Step.materialize ∉ main nonAdminEnv ∧
    Step.complete ∉ main nonAdminEnv :=
  privilege_gate_blocks nonAdminEnv rfl

/-- C1: when the project-archive fetch fails,
`download_and_extract_project` returns `False` and `main` stops at the
materialization step: the environment provisioner, the script generator
and the service activator are never reached. -/
theorem materialize_fetch_failure_aborts (e : Env) (m : String)
    (h : e.projFetch = TransferOutcome.exn m) :
    (download_and_extract_project e.projFetch e.unpack e.archiveItems
      e.installDir).outcome = Except.ok false ∧
    Step.condaEnv ∉ main e ∧ Step.scripts ∉ main e ∧
    Step.dockerServices ∉ main e := by
  have hout : (download_and_extract_project e.projFetch e.unpack e.archiveItems
      e.installDir).outcome = Except.ok false := by
    rw [h]; rfl
  have hafter : mainAfterConda e = [Step.materialize] := by
    unfold mainAfterConda
    rw [hout]
  have habs : ∀ s : Step, s ≠ Step.privGate → s ≠ Step.relaunch →
      s ≠ Step.probeDocker → s ≠ Step.installDocker → s ≠ Step.probeConda →
      s ≠ Step.installConda → s ≠ Step.materialize → s ∉ main e := by
    intro s h1 h2 h3 h4 h5 h6 h7 hs
    unfold main at hs
    cases hA : e.admin
    · rw [hA] at hs
      simp at hs
      rcases hs with h0 | h0
      · exact h1 h0
      · exact h2 h0
    · rw [hA] at hs
      simp at hs
      rcases hs with h0 | h0
      · exact h1 h0
      · rcases mem_mainFromDocker e s h0 with h0 | h0 | h0
        · exact h3 h0
        · exact h4 h0
        · rcases mem_mainFromConda e s h0 with h0 | h0 | h0
          · exact h5 h0
          · exact h6 h0
          · rw [hafter] at h0
            simp at h0
            exact h7 h0
  exact ⟨hout,
    habs _ (by decide) (by decide) (by decide) (by decide) (by decide) (by decide)
      (by decide),
    habs _ (by decide) (by decide) (by decide) (by decide) (by decide) (by decide)
      (by decide),
    habs _ (by decide) (by decide) (by decide) (by decide) (by decide) (by decide)
      (by decide)⟩

/-- C1 witness: on a concrete run whose archive fetch times out,
materialization reports `False` and no post-materialization step
appears in the trace. -/
theorem materialize_fetch_failure_aborts_witness :
    (download_and_extract_project projFetchFailEnv.projFetch projFetchFailEnv.unpack
      projFetchFailEnv.archiveItems projFetchFailEnv.installDir).outcome =
        Except.ok false ∧
    Step.condaEnv ∉ main projFetchFailEnv ∧ Step.scripts ∉ main projFetchFailEnv ∧
    Step.dockerServices ∉ main projFetchFailEnv :=
  materialize_fetch_failure_aborts projFetchFailEnv "connection timed out" rfl

/-- C8: environment provisioning and service activation report success
for every exit status of their underlying calls (the statuses are
recorded but never checked), and whenever the orchestrator reaches the
provisioning step it runs through to completion regardless of those
statuses. -/
theorem best_effort_steps_always_succeed :
    (∀ (envListExit envUpdateExit envCreateExit pipExit : ℤ) (envExists : Bool),
      (create_conda_environment envListExit envExists envUpdateExit envCreateExit
        pipExit).2 = true) ∧
    (∀ buildExit upExit : ℤ, (start_docker_services buildExit upExit).2 = true) ∧
    (∀ e : Env, Step.condaEnv ∈ main e → Step.complete ∈ main e) := by
  refine ⟨?_, ?_, ?_⟩
  · intro a b c d ex
    cases ex <;> rfl
  · intro b u
    rfl
  · intro e h
    unfold main at h ⊢
    cases hA : e.admin
    · simp [hA] at h
    · simp [hA] at h ⊢
      rcases mem_mainFromDocker e _ h with h0 | h0 | h0
      · cases h0
      · cases h0
      · rcases mem_mainFromConda e _ h0 with h1 | h1 | h1
        · cases h1
        · cases h1
        · rcases mainAfterConda_cases e with h2 | ⟨_, h2⟩
          · rw [h2] at h1
            simp at h1
          · exact mem_mainFromDocker_of_conda e _
              (mem_mainFromConda_of_after e _ (by rw [h2]; simp))

/-- C8 witness: on a concrete run that reaches provisioning, the
workflow reaches completion; concrete non-zero exit statuses still
yield `True` from both best-effort steps. -/
theorem best_effort_steps_always_succeed_witness :
    (create_conda_environment 1 true 2 3 4).2 = true ∧
    (start_docker_services 5 6).2 = true ∧
    Step.complete ∈ main happyEnv :=
  ⟨best_effort_steps_always_succeed.1 1 2 3 4 true,
   best_effort_steps_always_succeed.2.1 5 6,
   best_effort_steps_always_succeed.2.2 happyEnv (by decide)⟩

/-- C4: remediation returns `True` exactly when the installer fetch
succeeded and the unattended installer exited zero; a failed fetch means
the installer never runs and `False` is returned; a non-zero installer
exit prints the diagnostic, blocks on the operator prompt before
returning, and returns `False` — after which the workflow continues to
the next prerequisite step instead of aborting. -/
theorem remediation_contract (fetch : TransferOutcome) (x : ℤ) :
    (∀ (ev : List RemEvent) (b : Bool),
      install_docker fetch x = Except.ok (ev, b) →
        (b = true ↔ (fetch = TransferOutcome.ok ∧ x = 0))) ∧
    (∀ (ev : List RemEvent) (b : Bool) (m : String),
      fetch = TransferOutcome.exn m → install_docker fetch x = Except.ok (ev, b) →
        RemEvent.ranInstaller ∉ ev ∧ b = false) ∧
    (∀ (ev : List RemEvent) (b : Bool),
      fetch = TransferOutcome.ok → x ≠ 0 →
        install_docker fetch x = Except.ok (ev, b) →
        RemEvent.printedDiagnostic ∈ ev ∧ RemEvent.prompted ∈ ev ∧ b = false) ∧
    (∀ (ev : List RemEvent) (b : Bool),
      install_miniconda fetch x = Except.ok (ev, b) →
        (b = true ↔ (fetch = TransferOutcome.ok ∧ x = 0))) ∧
    (∀ (ev : List RemEvent) (b : Bool) (m : String),
      fetch = TransferOutcome.exn m → install_miniconda fetch x = Except.ok (ev, b) →
        RemEvent.ranInstaller ∉ ev ∧ b = false) ∧
    (∀ (ev : List RemEvent) (b : Bool),
      fetch = TransferOutcome.ok → x ≠ 0 →
        install_miniconda fetch x = Except.ok (ev, b) →
        RemEvent.printedDiagnostic ∈ ev ∧ RemEvent.prompted ∈ ev ∧ b = false) ∧
    (∀ e : Env, Step.installDocker ∈ main e → Step.probeConda ∈ main e) ∧
    (∀ e : Env, Step.installConda ∈ main e → Step.materialize ∈ main e) := by
  refine ⟨?_, ?_, ?_, ?_, ?_, ?_, ?_, ?_⟩
  · intro ev b heq
    by_cases hx : x = 0 <;> cases fetch <;>
      simp [install_docker, download_file, urlretrieve, hx] at heq <;>
      simp [heq, hx]
  · intro ev b m hm heq
    subst hm
    simp [install_docker, download_file, urlretrieve] at heq
    obtain ⟨hev, hb⟩ := heq
    subst hev
    subst hb
    exact ⟨by decide, rfl⟩
  · intro ev b hf hx heq
    subst hf
    simp [install_docker, download_file, urlretrieve, hx] at heq
    obtain ⟨hev, hb⟩ := heq
    subst hev
    subst hb
    exact ⟨by decide, by decide, rfl⟩
  · intro ev b heq
    by_cases hx : x = 0 <;> cases fetch <;>
      simp [install_miniconda, download_file, urlretrieve, hx] at heq <;>
      simp [heq, hx]
  · intro ev b m hm heq
    subst hm
    simp [install_miniconda, download_file, urlretrieve] at heq
    obtain ⟨hev, hb⟩ := heq
    subst hev
    subst hb
    exact ⟨by decide, rfl⟩
  · intro ev b hf hx heq
    subst hf
    simp [install_miniconda, download_file, urlretrieve, hx] at heq
    obtain ⟨hev, hb⟩ := heq
    subst hev
    subst hb
    exact ⟨by decide, by decide, rfl⟩
  · intro e h
    unfold main at h ⊢
    cases hA : e.admin
    · simp [hA] at h
    · simp [hA] at h ⊢
      exact mem_mainFromDocker_of_conda e _ (probeConda_mem_mainFromConda e)
  · intro e h
    unfold main at h ⊢
    cases hA : e.admin
    · simp [hA] at h
    · simp [hA] at h ⊢
      exact mem_mainFromDocker_of_conda e _
        (mem_mainFromConda_of_after e _ (materialize_mem_mainAfterConda e))

/-- C4 witness: concrete runs exercise every branch — success iff fetch
ok and exit zero; fetch failure leaves the installer unexecuted; a
non-zero exit shows the diagnostic and the blocking prompt; and the
workflow continues past both failed remediations. -/
theorem remediation_contract_witness :
    (true = true ↔ (TransferOutcome.ok = TransferOutcome.ok ∧ (0 : ℤ) = 0)) ∧
    (RemEvent.ranInstaller ∉ ([RemEvent.fetchAttempt] : List RemEvent) ∧
      false = false) ∧
    (RemEvent.printedDiagnostic ∈ ([RemEvent.fetchAttempt, RemEvent.ranInstaller,
        RemEvent.printedDiagnostic, RemEvent.prompted] : List RemEvent) ∧
      RemEvent.prompted ∈ ([RemEvent.fetchAttempt, RemEvent.ranInstaller,
        RemEvent.printedDiagnostic, RemEvent.prompted] : List RemEvent) ∧
      false = false) ∧
    Step.probeConda ∈ main dockerMissingEnv ∧
    Step.materialize ∈ main condaMissingEnv :=
  ⟨(remediation_contract TransferOutcome.ok 0).1
      [RemEvent.fetchAttempt, RemEvent.ranInstaller] true rfl,
   (remediation_contract (TransferOutcome.exn "dns failure") 7).2.1
      [RemEvent.fetchAttempt] false "dns failure" rfl rfl,
   (remediation_contract TransferOutcome.ok 1).2.2.1
      [RemEvent.fetchAttempt, RemEvent.ranInstaller, RemEvent.printedDiagnostic,
        RemEvent.prompted] false rfl (by decide) rfl,
   (remediation_contract TransferOutcome.ok 0).2.2.2.2.2.2.1 dockerMissingEnv
      (by decide),
   (remediation_contract TransferOutcome.ok 0).2.2.2.2.2.2.2 condaMissingEnv
      (by decide)⟩

end Installer
